import Mathlib

/-!
Verification development for the SMIRK demo script (demo.py).

The script is a straight-line inference pipeline: load a checkpoint, detect
face landmarks with mediapipe, optionally crop the face with a similarity
transform, run the encoder / FLAME / renderer, optionally refine with a
generator network, composite a grid and write one image file.

The development has four parts:
- an exact-arithmetic model of crop_face (demo.py lines 18-41), with the
  similarity-transform estimator abstracted as a function parameter, since
  only the points passed to it are computed by the script;
- a symbolic model of the whole run (demo.py lines 86-299): neural networks
  and image libraries are black boxes, so data values are terms of a small
  expression language Val and a run is the list of library-call events it
  performs, in program order;
- an exact model of the stochastic point-mask scatter (lines 229-237);
- an exact model of the random slice bound rbound (lines 230-234).
-/

/-- Python int() / torch .long() applied to an exact rational: truncation
toward zero. -/
def pyInt (q : ℚ) : ℤ := if 0 ≤ q then ⌊q⌋ else ⌈q⌉

/-- np.min over an array, as the left fold the reduction performs
(0 for the empty array, which numpy rejects). -/
def npMin (xs : List ℚ) : ℚ :=
  match xs with
  | [] => 0
  | h :: t => t.foldl min h

/-- np.max over an array, as the left fold the reduction performs. -/
def npMax (xs : List ℚ) : ℚ :=
  match xs with
  | [] => 0
  | h :: t => t.foldl max h

/-- A 2D point with exact rational coordinates. -/
abbrev Pt := ℚ × ℚ

/-- An image frame: shape (h, w, channels implicit) plus pixel data. -/
structure Frame where
  h : ℕ
  w : ℕ
  data : ℕ → ℕ → ℕ → ℚ

/-- demo.py lines 18-41, crop_face(frame, landmarks, scale, image_size).
The skimage call estimate_transform("similarity", src_pts, DST_PTS) is
abstracted as the parameter est: the function returns est applied to the
source and destination points the script computes.  The frame is only
unpacked for its shape (h, w, _ = frame.shape); the unpacked values are
unused, exactly as in the source. -/
def crop_face {T : Type} (est : List Pt → List Pt → T) (frame : Frame)
    (landmarks : List Pt) (scale : ℚ) (image_size : ℚ) : T :=
  let left := npMin (landmarks.map Prod.fst)
  let right := npMax (landmarks.map Prod.fst)
  let top := npMin (landmarks.map Prod.snd)
  let bottom := npMax (landmarks.map Prod.snd)
  let _hw := (frame.h, frame.w)
  let old_size := (right - left + bottom - top) / 2
  let center : Pt := (right - (right - left) / 2, bottom - (bottom - top) / 2)
  let size : ℚ := (pyInt (old_size * scale) : ℤ)
  let src_pts : List Pt :=
    [(center.1 - size / 2, center.2 - size / 2),
     (center.1 - size / 2, center.2 + size / 2),
     (center.1 + size / 2, center.2 - size / 2)]
  let DST_PTS : List Pt := [(0, 0), (0, image_size - 1), (image_size - 1, 0)]
  est src_pts DST_PTS

/-- Claim-side bounding box: the minimum x coordinate of the landmarks. -/
def bboxLeft (landmarks : List Pt) : ℚ := ((landmarks.map Prod.fst).min?).getD 0

/-- Claim-side bounding box: the maximum x coordinate of the landmarks. -/
def bboxRight (landmarks : List Pt) : ℚ := ((landmarks.map Prod.fst).max?).getD 0

/-- Claim-side bounding box: the minimum y coordinate of the landmarks. -/
def bboxTop (landmarks : List Pt) : ℚ := ((landmarks.map Prod.snd).min?).getD 0

/-- Claim-side bounding box: the maximum y coordinate of the landmarks. -/
def bboxBottom (landmarks : List Pt) : ℚ := ((landmarks.map Prod.snd).max?).getD 0

/-- Claim-side (C3): the center of the landmarks axis-aligned bounding box. -/
def claimCenter (landmarks : List Pt) : Pt :=
  ((bboxLeft landmarks + bboxRight landmarks) / 2,
   (bboxTop landmarks + bboxBottom landmarks) / 2)

/-- Claim-side (C3): size = int(((right-left) + (bottom-top))/2 * scale). -/
def claimSize (landmarks : List Pt) (scale : ℚ) : ℚ :=
  (pyInt (((bboxRight landmarks - bboxLeft landmarks)
      + (bboxBottom landmarks - bboxTop landmarks)) / 2 * scale) : ℤ)

/-- Claim-side (C3): the three source points of the similarity estimate. -/
def claimSrcPts (landmarks : List Pt) (scale : ℚ) : List Pt :=
  [((claimCenter landmarks).1 - claimSize landmarks scale / 2,
    (claimCenter landmarks).2 - claimSize landmarks scale / 2),
   ((claimCenter landmarks).1 - claimSize landmarks scale / 2,
    (claimCenter landmarks).2 + claimSize landmarks scale / 2),
   ((claimCenter landmarks).1 + claimSize landmarks scale / 2,
    (claimCenter landmarks).2 - claimSize landmarks scale / 2)]

/-- Claim-side (C3): the three destination points of the similarity estimate. -/
def claimDstPts (image_size : ℚ) : List Pt :=
  [(0, 0), (0, image_size - 1), (image_size - 1, 0)]

/-! ## Symbolic model of the demo run (demo.py lines 44-299)

Neural networks, mediapipe, skimage and cv2 are pretrained or library black
boxes, so data values are represented as terms of the expression language
Val, each constructor one library operation of the script, and a run is
represented by the list of call events it performs, in program order. -/

/-- Which side of the single estimated similarity transform a warp uses. -/
inductive TUse where
  | forward
  | inverse
deriving DecidableEq, Repr

/-- Symbolic data values of the script. -/
inductive Val where
  /-- cv2.imread(args.input_path), line 120 -/
  | image : Val
  /-- run_mediapipe(image) when a face was found, line 123 -/
  | kptFull : Val
  /-- v[..., :2], line 133 -/
  | sliceXY : Val → Val
  /-- skimage warp(v, tform side, output_shape=(h, w)) + astype(uint8), lines 137, 174, 265 -/
  | warped : Val → TUse → ℕ → ℕ → Val
  /-- np.dot(tform.params, hstack([v, ones]).T).T then [:, :2], lines 141-145 -/
  | dotTform : Val → Val
  /-- cv2.cvtColor(v, COLOR_BGR2RGB), lines 150, 191, 292 -/
  | cvtBGR2RGB : Val → Val
  /-- cv2.resize(v, (w, h)), line 151 -/
  | resize : Val → ℕ → ℕ → Val
  /-- torch.tensor/Tensor(v).permute(2,0,1).unsqueeze(0).float()/255, lines 152, 181, 190 -/
  | toTensor : Val → Val
  /-- v.squeeze(0).permute(1,2,0).detach().cpu().numpy()*255 astype uint8, lines 171, 261, 290 -/
  | toNumpyU8 : Val → Val
  /-- smirk_encoder(v), line 157 -/
  | encoderOut : Val → Val
  /-- dictionary access v[name] -/
  | field : Val → String → Val
  /-- flame.forward(v), line 159 -/
  | flameFwd : Val → Val
  /-- renderer.forward(vertices, cam, landmarks_fan, landmarks_mp), lines 160-165 -/
  | rendererFwd : Val → Val → Val → Val → Val
  /-- F.interpolate(v, (h, w), mode="bilinear"), lines 186, 280 -/
  | interp : Val → ℕ → ℕ → Val
  /-- torch.cat([a, b], dim=3), lines 197, 199, 286, 288 -/
  | cat3 : Val → Val → Val
  /-- torch.cat([a, b], dim=1), line 255 -/
  | cat1 : Val → Val → Val
  /-- create_mask(v, (224,224)) made into a float32 torch tensor, lines 213, 239-244 -/
  | hullMask : Val → Val
  /-- 1 - (v == 0).all(dim=1, keepdim=True).float(), line 217 -/
  | renderedMaskOf : Val → Val
  /-- mesh_based_mask_uniform_faces on the transformed vertices, stochastic, lines 222-227 -/
  | meshSample : ℕ → Val → Val
  /-- the scattered point mask pmask, stochastic, lines 229-237 -/
  | pmaskOf : ℕ → Val → Val
  /-- elementwise product a * b, line 246 -/
  | mul : Val → Val → Val
  /-- masking_utils.masking(img, hull, extra, radius, rendered_mask), lines 247-253 -/
  | maskingOut : Val → Val → Val → ℕ → Val → Val
  /-- smirk_generator(v), line 257 -/
  | genOut : Val → Val
deriving DecidableEq, Repr

/-- Library-call events of a run, in program order. -/
inductive Ev where
  /-- torch.load(args.checkpoint), line 88 -/
  | loadCheckpoint
  /-- smirk_encoder.load_state_dict, line 95 -/
  | loadEncoderWeights
  /-- smirk_generator.load_state_dict, line 110 -/
  | loadGeneratorWeights
  /-- cv2.imread, line 120 -/
  | imread
  /-- run_mediapipe(image), line 123 -/
  | mediapipeCall
  /-- exit(), lines 131, 207 -/
  | exitCall
  /-- estimate_transform("similarity", ...) inside crop_face, from the given landmarks -/
  | estimateTf : Val → Ev
  /-- skimage warp of an image with a side of tform to shape (h, w) -/
  | warpCall : Val → TUse → ℕ → ℕ → Ev
  /-- smirk_encoder(input), line 157 -/
  | encoderCall : Val → Ev
  /-- flame.forward(input), line 159 -/
  | flameCall : Val → Ev
  /-- renderer.forward(vertices, cam, landmarks_fan, landmarks_mp), lines 160-165 -/
  | rendererCall : Val → Val → Val → Val → Ev
  /-- torch.cat building the output grid, lines 197, 199, 286, 288 -/
  | catGrid
  /-- mesh_based_mask_uniform_faces sampling, line 222 -/
  | sampleMesh
  /-- torch.randint, line 230 -/
  | randintCall
  /-- torch.rand, line 231 -/
  | randCall
  /-- masking_utils.masking(img, hull, extra, ...), line 247 -/
  | maskingCall : Val → Val → Val → Ev
  /-- smirk_generator(input), line 257 -/
  | generatorCall : Val → Ev
  /-- os.makedirs(path), line 295 -/
  | makedirs : String → Ev
  /-- cv2.imwrite(path, data), line 299 -/
  | imwrite : String → Val → Ev
deriving DecidableEq, Repr

/-- Command-line arguments of demo.py (lines 45-82). -/
structure Args where
  input_path : String
  out_path : String
  crop : Bool
  use_smirk_generator : Bool
  render_orig : Bool
deriving DecidableEq, Repr

/-- The external state a run depends on: whether mediapipe found landmarks,
whether the output directory exists, the input image height and width, and
an abstract seed for the stochastic sampling of the generator branch. -/
structure Env where
  kptPresent : Bool
  outDirExists : Bool
  origH : ℕ
  origW : ℕ
  rng : ℕ
deriving DecidableEq, Repr

/-- cropped_image before color/size normalization: warp of the original
image by tform.inverse when cropping (lines 137-139), else the original
image (line 147). -/
def croppedImage0V (crop : Bool) : Val :=
  if crop then Val.warped Val.image TUse.inverse 224 224 else Val.image

/-- cropped_image as fed to the encoder: cvtColor, resize to 224x224,
to-tensor and /255 (lines 150-155). -/
def croppedImageV (crop : Bool) : Val :=
  Val.toTensor (Val.resize (Val.cvtBGR2RGB (croppedImage0V crop)) 224 224)

/-- cropped_kpt_mediapipe: the landmarks mapped through tform.params when
cropping (lines 141-145), else the raw mediapipe landmarks (line 148). -/
def croppedKptV (crop : Bool) : Val :=
  if crop then Val.dotTform (Val.sliceXY Val.kptFull) else Val.kptFull

/-- outputs = smirk_encoder(cropped_image), line 157. -/
def outputsV (crop : Bool) : Val := Val.encoderOut (croppedImageV crop)

/-- flame_output = flame.forward(outputs), line 159. -/
def flameOutputV (crop : Bool) : Val := Val.flameFwd (outputsV crop)

/-- renderer_output = renderer.forward(vertices, cam, landmarks), lines 160-165. -/
def rendererOutputV (crop : Bool) : Val :=
  Val.rendererFwd (Val.field (flameOutputV crop) "vertices")
    (Val.field (outputsV crop) "cam")
    (Val.field (flameOutputV crop) "landmarks_fan")
    (Val.field (flameOutputV crop) "landmarks_mp")

/-- rendered_img = renderer_output["rendered_img"], line 167. -/
def renderedImgV (crop : Bool) : Val := Val.field (rendererOutputV crop) "rendered_img"

/-- rendered_img_orig, lines 171-188: warped back with the forward tform
when cropping, else bilinear interpolation to the original size. -/
def renderedImgOrigV (crop : Bool) (oh ow : ℕ) : Val :=
  if crop then Val.toTensor (Val.warped (Val.toNumpyU8 (renderedImgV crop)) TUse.forward oh ow)
  else Val.interp (renderedImgV crop) oh ow

/-- full_image, lines 190-196. -/
def fullImageV : Val := Val.toTensor (Val.cvtBGR2RGB Val.image)

/-- The first grid, lines 197-199. -/
def grid1V (crop rorig : Bool) (oh ow : ℕ) : Val :=
  if rorig then Val.cat3 fullImageV (renderedImgOrigV crop oh ow)
  else Val.cat3 (croppedImageV crop) (renderedImgV crop)

/-- hull_mask as a float32 torch tensor, lines 213 and 239-244. -/
def hullMaskV (crop : Bool) : Val := Val.hullMask (croppedKptV crop)

/-- rendered_mask, line 217. -/
def renderedMaskV (crop : Bool) : Val := Val.renderedMaskOf (renderedImgV crop)

/-- npoints from the stochastic mesh sampling, lines 222-227. -/
def npointsSymV (crop : Bool) (rng : ℕ) : Val :=
  Val.meshSample rng (Val.field (rendererOutputV crop) "transformed_vertices")

/-- pmask after the scatter loop, lines 229-237 (modeled exactly in the
buildPmask section below; symbolic here). -/
def pmaskSymV (crop : Bool) (rng : ℕ) : Val := Val.pmaskOf rng (npointsSymV crop rng)

/-- extra_points = cropped_image * pmask, line 246. -/
def extraPointsV (crop : Bool) (rng : ℕ) : Val :=
  Val.mul (croppedImageV crop) (pmaskSymV crop rng)

/-- masked_img = masking(cropped_image, hull_mask, extra_points, 10,
rendered_mask=rendered_mask), lines 247-253. -/
def maskedImgV (crop : Bool) (rng : ℕ) : Val :=
  Val.maskingOut (croppedImageV crop) (hullMaskV crop) (extraPointsV crop rng) 10
    (renderedMaskV crop)

/-- smirk_generator_input = torch.cat([rendered_img, masked_img], dim=1), line 255. -/
def genInputV (crop : Bool) (rng : ℕ) : Val :=
  Val.cat1 (renderedImgV crop) (maskedImgV crop rng)

/-- reconstructed_img = smirk_generator(smirk_generator_input), line 257. -/
def reconstructedImgV (crop : Bool) (rng : ℕ) : Val := Val.genOut (genInputV crop rng)

/-- reconstructed_img_orig, lines 261-284. -/
def reconstructedOrigV (crop : Bool) (oh ow rng : ℕ) : Val :=
  if crop then
    Val.toTensor (Val.warped (Val.toNumpyU8 (reconstructedImgV crop rng)) TUse.forward oh ow)
  else Val.interp (reconstructedImgV crop rng) oh ow

/-- The final grid, lines 286-288 (or the first grid if no generator). -/
def gridFinalV (crop gen rorig : Bool) (oh ow rng : ℕ) : Val :=
  if gen then
    (if rorig then Val.cat3 (grid1V crop rorig oh ow) (reconstructedOrigV crop oh ow rng)
     else Val.cat3 (grid1V crop rorig oh ow) (reconstructedImgV crop rng))
  else grid1V crop rorig oh ow

/-- Python split(sep) over a character list: splits at every separator,
keeping empty parts, like str.split with an explicit separator. -/
def splitChar (sep : Char) : List Char → List Char → List (List Char)
  | [], acc => [acc.reverse]
  | c :: rest, acc =>
      if c = sep then acc.reverse :: splitChar sep rest []
      else splitChar sep rest (c :: acc)

/-- image_name = args.input_path.split("/")[-1], line 297. -/
def image_name (p : String) : String :=
  ((splitChar '/' p.toList []).map (fun l => String.mk l)).getLastD ""

/-- The output file path f-string, line 299. -/
def outFile (a : Args) : String := a.out_path ++ "/" ++ image_name a.input_path

/-- The trailing events of every completed run: the conditional makedirs
(lines 294-295) and the single imwrite of the grid scaled by 255, cast to
uint8 and color-converted (lines 290-299). -/
def tailEvents (a : Args) (e : Env) : List Ev :=
  (if e.outDirExists then [] else [Ev.makedirs a.out_path]) ++
  [Ev.imwrite (outFile a)
    (Val.cvtBGR2RGB (Val.toNumpyU8
      (gridFinalV a.crop a.use_smirk_generator a.render_orig e.origH e.origW e.rng)))]

/-- The full run of demo.py as the list of library-call events it performs,
in program order.  Mirrors the source line by line; the two exit() calls end
the run early. -/
def run (a : Args) (e : Env) : List Ev :=
  [Ev.loadCheckpoint, Ev.loadEncoderWeights] ++
  (if a.use_smirk_generator then [Ev.loadGeneratorWeights] else []) ++
  [Ev.imread, Ev.mediapipeCall] ++
  (if a.crop = true ∧ e.kptPresent = false then [Ev.exitCall]
   else
    (if a.crop then
      [Ev.estimateTf (Val.sliceXY Val.kptFull),
       Ev.warpCall Val.image TUse.inverse 224 224]
     else []) ++
    [Ev.encoderCall (croppedImageV a.crop),
     Ev.flameCall (outputsV a.crop),
     Ev.rendererCall (Val.field (flameOutputV a.crop) "vertices")
       (Val.field (outputsV a.crop) "cam")
       (Val.field (flameOutputV a.crop) "landmarks_fan")
       (Val.field (flameOutputV a.crop) "landmarks_mp")] ++
    (if a.render_orig = true ∧ a.crop = true then
      [Ev.warpCall (Val.toNumpyU8 (renderedImgV a.crop)) TUse.forward e.origH e.origW]
     else []) ++
    [Ev.catGrid] ++
    (if a.use_smirk_generator then
      (if e.kptPresent = false then [Ev.exitCall]
       else
        [Ev.sampleMesh, Ev.randintCall, Ev.randCall,
         Ev.maskingCall (croppedImageV a.crop) (hullMaskV a.crop) (extraPointsV a.crop e.rng),
         Ev.generatorCall (genInputV a.crop e.rng)] ++
        (if a.render_orig = true ∧ a.crop = true then
          [Ev.warpCall (Val.toNumpyU8 (reconstructedImgV a.crop e.rng)) TUse.forward
            e.origH e.origW]
         else []) ++
        [Ev.catGrid] ++ tailEvents a e)
     else tailEvents a e))

/-! ## Stages of the run (claim C2) -/

/-- The pipeline stages named by the spec: load checkpoint and weights,
detect landmarks, crop, network inference, grid compositing, file write. -/
inductive Stage where
  | load
  | detect
  | cropStage
  | nets
  | composite
  | write
deriving DecidableEq, Repr

/-- The stage an event belongs to; auxiliary events (imread, sampling,
makedirs, exit, warps inside crop and compositing) map to no stage. -/
def stageOf : Ev → Option Stage
  | Ev.loadCheckpoint => some Stage.load
  | Ev.loadEncoderWeights => some Stage.load
  | Ev.loadGeneratorWeights => some Stage.load
  | Ev.mediapipeCall => some Stage.detect
  | Ev.estimateTf _ => some Stage.cropStage
  | Ev.encoderCall _ => some Stage.nets
  | Ev.flameCall _ => some Stage.nets
  | Ev.rendererCall _ _ _ _ => some Stage.nets
  | Ev.generatorCall _ => some Stage.nets
  | Ev.catGrid => some Stage.composite
  | Ev.imwrite _ _ => some Stage.write
  | _ => none

/-- The stage sequence of a trace: each event mapped to its stage, with
consecutive events of one stage collapsed to a single entry. -/
def stages (t : List Ev) : List Stage :=
  (t.filterMap stageOf).destutter Ne

/-- The straight-line stage order the claim states. -/
def canonicalStages : List Stage :=
  [Stage.load, Stage.detect, Stage.cropStage, Stage.nets, Stage.composite, Stage.write]

/-- The stage order the code actually follows: with the generator flag the
network and compositing stages run a second time. -/
def extendedStages : List Stage :=
  [Stage.load, Stage.detect, Stage.cropStage, Stage.nets, Stage.composite,
   Stage.nets, Stage.composite, Stage.write]

/-- True for the imwrite event. -/
def Ev.isWrite : Ev → Bool
  | Ev.imwrite _ _ => true
  | _ => false

/-- True for the makedirs event. -/
def Ev.isMakedirs : Ev → Bool
  | Ev.makedirs _ => true
  | _ => false

/-- True for warp calls. -/
def Ev.isWarpE : Ev → Bool
  | Ev.warpCall _ _ _ _ => true
  | _ => false

/-- True for the transform-estimation call. -/
def Ev.isEstimateE : Ev → Bool
  | Ev.estimateTf _ => true
  | _ => false

/-- True for any neural-network forward call. -/
def Ev.isNetCall : Ev → Bool
  | Ev.encoderCall _ => true
  | Ev.flameCall _ => true
  | Ev.rendererCall _ _ _ _ => true
  | Ev.generatorCall _ => true
  | _ => false

/-- True for the renderer forward call. -/
def Ev.isRendererCall : Ev → Bool
  | Ev.rendererCall _ _ _ _ => true
  | _ => false

/-- True for the generator forward call. -/
def Ev.isGenCall : Ev → Bool
  | Ev.generatorCall _ => true
  | _ => false

/-- True for the stochastic sampling events: torch.randint, torch.rand and
the mesh-based point sampling. -/
def Ev.isRandomE : Ev → Bool
  | Ev.sampleMesh => true
  | Ev.randintCall => true
  | Ev.randCall => true
  | _ => false

/-! ## Exact model of the pmask scatter (demo.py lines 229-237, claim C5) -/

/-- A 4-dimensional tensor of exact rationals, indexed batch, channel, y, x. -/
abbrev Tensor4 := ℕ → ℕ → ℕ → ℕ → ℚ

/-- One point of the fancy-indexed assignment
pmask[bi, :, y, x] = 1: every channel of batch bi at row y, column x is set
to 1; xy is the sampled (x, y) pair. -/
def setPoint (p : Tensor4) (bi : ℕ) (xy : ℕ × ℕ) : Tensor4 :=
  fun b c y x => if b = bi ∧ (x, y) = xy then 1 else p b c y x

/-- The assignment pmask[bi, :, npoints[bi, :r, 1], npoints[bi, :r, 0]] = 1
for one batch index, as the fold over the point list. -/
def scatterRow (p : Tensor4) (bi : ℕ) (pts : List (ℕ × ℕ)) : Tensor4 :=
  pts.foldl (fun q xy => setPoint q bi xy) p

/-- Lines 229-237: pmask = torch.zeros_like(rendered_mask) followed by the
scatter loop over the batch; the Python slice :rbound[bi] is List.take. -/
def buildPmask (B : ℕ) (npoints : ℕ → List (ℕ × ℕ)) (rbound : ℕ → ℕ) : Tensor4 :=
  (List.range B).foldl
    (fun p bi => scatterRow p bi ((npoints bi).take (rbound bi)))
    (fun _ _ _ _ => 0)

/-! ## Exact model of the random slice bound (demo.py lines 230-234, claim C8) -/

/-- mask_ratio_mul = 5, line 209. -/
def maskRatioMulQ : ℚ := 5

/-- rsing entry: torch.randint(0, 2, ...) * 2 - 1 from one raw draw, line 230. -/
def rsingOf (r : ℕ) : ℤ := ((r % 2 : ℕ) : ℤ) * 2 - 1

/-- rscale entry: torch.rand(...) * (mask_ratio_mul - 1) + 1 from one raw
draw u in the unit interval, lines 231-233. -/
def rscaleOf (u : ℚ) : ℚ := u * (maskRatioMulQ - 1) + 1

/-- rbound entry: (npoints.size(1) * (1/mask_ratio_mul) * rscale**rsing).long(),
line 234. -/
def rboundOf (N : ℕ) (u : ℚ) (s : ℤ) : ℤ :=
  pyInt ((N : ℚ) * (1 / maskRatioMulQ) * rscaleOf u ^ s)

/-- Concrete arguments with the generator flag for the C5 witness. -/
def aW5 : Args := ⟨"img.png", "out", false, true, false⟩

/-- Concrete environment with landmarks found for the C5 witness. -/
def eW5 : Env := ⟨true, true, 8, 8, 0⟩

/-- Concrete arguments for the C6 witness. -/
def aW6 : Args := ⟨"img.png", "out", true, false, true⟩

/-- Concrete arguments for the C9 witness. -/
def aW9 : Args := ⟨"samples/img.png", "out", false, false, false⟩

/-- Concrete environment with a missing output directory for the C9 witness. -/
def eW9 : Env := ⟨true, false, 8, 8, 0⟩

/-- Concrete arguments for the C7 witness: neither flag set. -/
def aW7 : Args := ⟨"a/b.png", "out", false, false, false⟩

/-- Concrete environment with no landmarks for the C7 witness. -/
def eW7 : Env := ⟨false, false, 3, 4, 0⟩

/-- Concrete arguments for the C4 witness: crop, render_orig and the
generator all set. -/
def aW4 : Args := ⟨"img.png", "out", true, true, true⟩

/-- Concrete environment with landmarks found for the C4 witness. -/
def eW4 : Env := ⟨true, true, 5, 6, 2⟩

/-- Concrete arguments for the C1 counterexample: generator flag set, no
crop. -/
def aX1 : Args := ⟨"img.png", "out", false, true, false⟩

/-- Concrete environment with no landmarks for the C1 counterexample. -/
def eX1 : Env := ⟨false, true, 8, 8, 0⟩

/-- The stage sequence of a run as a function of the three booleans that
determine it: crop flag, generator flag, landmarks found. -/
def stagesOf (crop gen kp : Bool) : List Stage :=
  if crop && !kp then [Stage.load, Stage.detect]
  else
    [Stage.load, Stage.detect] ++ (if crop then [Stage.cropStage] else []) ++
    [Stage.nets, Stage.composite] ++
    (if gen then
      (if kp then [Stage.nets, Stage.composite, Stage.write] else [])
     else [Stage.write])

/-- Concrete arguments for the C2 witness: no generator. -/
def aW2 : Args := ⟨"img.png", "out", true, false, false⟩

/-- Concrete environment for the C2 witness. -/
def eW2 : Env := ⟨true, true, 8, 8, 0⟩

/-- Concrete arguments for the C2 counterexample: generator flag set. -/
def aX2 : Args := ⟨"img.png", "out", false, true, false⟩

/-- Concrete environment with landmarks found for the C2 counterexample. -/
def eX2 : Env := ⟨true, true, 8, 8, 0⟩

/-! ## Theorems -/

theorem npMin_eq_min? (xs : List ℚ) (h : xs ≠ []) : (xs.min?).getD 0 = npMin xs := by
  cases xs with
  | nil => exact absurd rfl h
  | cons a t => simp [npMin, List.min?]

theorem npMax_eq_max? (xs : List ℚ) (h : xs ≠ []) : (xs.max?).getD 0 = npMax xs := by
  cases xs with
  | nil => exact absurd rfl h
  | cons a t => simp [npMax, List.max?]

/-- Claim C3: crop_face returns the similarity transform estimated from the
three source points derived from the bounding-box center and
size = int(((right-left)+(bottom-top))/2 * scale) to the destination points
(0,0), (0, image_size-1), (image_size-1, 0); the frame pixel values do not
affect the result. -/
theorem crop_face_matches_claim {T : Type} (est : List Pt → List Pt → T)
    (f g : Frame) (landmarks : List Pt) (scale image_size : ℚ)
    (hne : landmarks ≠ []) (hh : f.h = g.h) (hw : f.w = g.w) :
    crop_face est f landmarks scale image_size
      = est (claimSrcPts landmarks scale) (claimDstPts image_size)
    ∧ crop_face est f landmarks scale image_size
      = crop_face est g landmarks scale image_size := by
  constructor
  · have hmapf : landmarks.map Prod.fst ≠ [] := by
      cases landmarks with
      | nil => exact absurd rfl hne
      | cons a t => simp
    have hmaps : landmarks.map Prod.snd ≠ [] := by
      cases landmarks with
      | nil => exact absurd rfl hne
      | cons a t => simp
    have hL : bboxLeft landmarks = npMin (landmarks.map Prod.fst) :=
      npMin_eq_min? _ hmapf
    have hR : bboxRight landmarks = npMax (landmarks.map Prod.fst) :=
      npMax_eq_max? _ hmapf
    have hT : bboxTop landmarks = npMin (landmarks.map Prod.snd) :=
      npMin_eq_min? _ hmaps
    have hB : bboxBottom landmarks = npMax (landmarks.map Prod.snd) :=
      npMax_eq_max? _ hmaps
    simp only [crop_face, claimSrcPts, claimSize, claimCenter, claimDstPts,
      hL, hR, hT, hB]
    set L := npMin (landmarks.map Prod.fst) with hLdef
    set R := npMax (landmarks.map Prod.fst) with hRdef
    set Tv := npMin (landmarks.map Prod.snd) with hTdef
    set B := npMax (landmarks.map Prod.snd) with hBdef
    have harg : (R - L + B - Tv) / 2 * scale = ((R - L) + (B - Tv)) / 2 * scale := by
      ring
    rw [harg]
    congr 1
    simp only [List.cons.injEq, Prod.mk.injEq, and_true]
    set z : ℚ := ((pyInt (((R - L) + (B - Tv)) / 2 * scale) : ℤ) : ℚ) with hz
    refine ⟨⟨by ring, by ring⟩, ⟨by ring, by ring⟩, by ring, by ring⟩
  · rfl

/-- Witness for claim C3 at concrete inputs. -/
theorem crop_face_matches_claim_witness :
    crop_face (fun s d => (s, d)) ⟨2, 3, fun _ _ _ => 5⟩ [(0, 0), (2, 4)] 1 224
      = ((claimSrcPts [(0, 0), (2, 4)] 1), claimDstPts 224)
    ∧ crop_face (fun s d => (s, d)) ⟨2, 3, fun _ _ _ => 5⟩ [(0, 0), (2, 4)] 1 224
      = crop_face (fun s d => (s, d)) ⟨2, 3, fun _ _ _ => 7⟩ [(0, 0), (2, 4)] 1 224 :=
  crop_face_matches_claim (fun s d => (s, d)) ⟨2, 3, fun _ _ _ => 5⟩
    ⟨2, 3, fun _ _ _ => 7⟩ [(0, 0), (2, 4)] 1 224 (by decide) rfl rfl

theorem scatterRow_apply (p : Tensor4) (bi : ℕ) (pts : List (ℕ × ℕ))
    (b c y x : ℕ) :
    scatterRow p bi pts b c y x = if b = bi ∧ (x, y) ∈ pts then 1 else p b c y x := by
  induction pts generalizing p with
  | nil => simp [scatterRow]
  | cons xy rest ih =>
    show scatterRow (setPoint p bi xy) bi rest b c y x = _
    rw [ih (setPoint p bi xy)]
    by_cases hb : b = bi
    · by_cases h1 : (x, y) ∈ rest
      · simp [hb, h1]
      · by_cases h2 : (x, y) = xy
        · simp [hb, h1, h2, setPoint]
        · simp [hb, h1, h2, setPoint]
    · simp [hb, setPoint]

theorem buildPmask_apply (B : ℕ) (np : ℕ → List (ℕ × ℕ)) (rb : ℕ → ℕ)
    (b c y x : ℕ) :
    buildPmask B np rb b c y x
      = if b < B ∧ (x, y) ∈ (np b).take (rb b) then 1 else 0 := by
  induction B with
  | zero => simp [buildPmask]
  | succ n ih =>
    have hsplit : buildPmask (n + 1) np rb
        = scatterRow (buildPmask n np rb) n ((np n).take (rb n)) := by
      unfold buildPmask
      rw [List.range_succ, List.foldl_append, List.foldl_cons, List.foldl_nil]
    rw [hsplit, scatterRow_apply, ih]
    by_cases hb : b = n
    · subst hb
      by_cases hm : (x, y) ∈ (np b).take (rb b)
      · simp [hm]
      · simp [hm]
    · have : b < n + 1 ↔ b < n := by omega
      simp [hb, this]

/-- Membership in a take-prefix as an index bounded by the slice length. -/
theorem mem_take_iff_index (x : ℕ × ℕ) (l : List (ℕ × ℕ)) (n : ℕ) :
    x ∈ l.take n ↔ ∃ k, k < n ∧ l[k]? = some x := by
  constructor
  · intro h
    obtain ⟨i, hi⟩ := List.mem_iff_getElem?.mp h
    rw [List.getElem?_take] at hi
    by_cases hin : i < n
    · simp only [hin, if_true] at hi
      exact ⟨i, hin, hi⟩
    · simp [hin] at hi
  · rintro ⟨k, hk, hget⟩
    apply List.mem_iff_getElem?.mpr
    exact ⟨k, by rw [List.getElem?_take, if_pos hk]; exact hget⟩

/-- Claim C8: with rsing built from randint(0,2)*2-1 and rscale from
rand()*(mask_ratio_mul-1)+1, rsing is -1 or +1, rscale lies in
[1, mask_ratio_mul), the slice bound rbound is between 0 and
npoints.size(1), and the slice npoints[bi, :rbound[bi]] reads exactly
rbound[bi] of the sampled points. -/
theorem rbound_within_sampled (N r : ℕ) (u : ℚ) (pts : List (ℕ × ℕ))
    (hu0 : 0 ≤ u) (hu1 : u < 1) (hlen : pts.length = N) :
    (rsingOf r = 1 ∨ rsingOf r = -1)
    ∧ 1 ≤ rscaleOf u ∧ rscaleOf u < maskRatioMulQ
    ∧ 0 ≤ rboundOf N u (rsingOf r)
    ∧ rboundOf N u (rsingOf r) ≤ (N : ℤ)
    ∧ (pts.take (rboundOf N u (rsingOf r)).toNat).length
        = (rboundOf N u (rsingOf r)).toNat := by
  have hsing : rsingOf r = 1 ∨ rsingOf r = -1 := by
    rcases Nat.mod_two_eq_zero_or_one r with h | h
    · right
      simp [rsingOf, h]
    · left
      simp [rsingOf, h]
  have hs1 : (1 : ℚ) ≤ rscaleOf u := by
    simp only [rscaleOf, maskRatioMulQ]
    linarith
  have hs5 : rscaleOf u < maskRatioMulQ := by
    simp only [rscaleOf, maskRatioMulQ]
    linarith
  have hspos : (0 : ℚ) < rscaleOf u := lt_of_lt_of_le one_pos hs1
  set q : ℚ := (N : ℚ) * (1 / maskRatioMulQ) * rscaleOf u ^ rsingOf r with hq
  have hq0 : 0 ≤ q := by
    rw [hq]
    have h5 : (0 : ℚ) ≤ 1 / maskRatioMulQ := by norm_num [maskRatioMulQ]
    exact mul_nonneg (mul_nonneg (Nat.cast_nonneg N) h5) (le_of_lt (zpow_pos hspos _))
  have hqN : q ≤ (N : ℚ) := by
    rcases hsing with hs | hs
    · rw [hq, hs, zpow_one]
      have h1 : 1 / maskRatioMulQ * rscaleOf u ≤ 1 := by
        rw [maskRatioMulQ] at hs5 ⊢
        linarith
      calc (N : ℚ) * (1 / maskRatioMulQ) * rscaleOf u
          = (N : ℚ) * (1 / maskRatioMulQ * rscaleOf u) := by ring
        _ ≤ (N : ℚ) * 1 := mul_le_mul_of_nonneg_left h1 (Nat.cast_nonneg N)
        _ = (N : ℚ) := mul_one _
    · rw [hq, hs, zpow_neg_one]
      have hinv1 : (rscaleOf u)⁻¹ ≤ 1 := inv_le_one_of_one_le₀ hs1
      have hinv0 : (0 : ℚ) ≤ (rscaleOf u)⁻¹ := inv_nonneg.mpr (le_of_lt hspos)
      have h1 : 1 / maskRatioMulQ * (rscaleOf u)⁻¹ ≤ 1 := by
        rw [maskRatioMulQ]
        nlinarith
      calc (N : ℚ) * (1 / maskRatioMulQ) * (rscaleOf u)⁻¹
          = (N : ℚ) * (1 / maskRatioMulQ * (rscaleOf u)⁻¹) := by ring
        _ ≤ (N : ℚ) * 1 := mul_le_mul_of_nonneg_left h1 (Nat.cast_nonneg N)
        _ = (N : ℚ) := mul_one _
  have hval : rboundOf N u (rsingOf r) = ⌊q⌋ := by
    rw [rboundOf, pyInt, if_pos hq0]
  have h0 : 0 ≤ rboundOf N u (rsingOf r) := by
    rw [hval]
    exact Int.floor_nonneg.mpr hq0
  have hNb : rboundOf N u (rsingOf r) ≤ (N : ℤ) := by
    rw [hval]
    have := Int.floor_le_floor hqN
    simpa using this
  refine ⟨hsing, hs1, hs5, h0, hNb, ?_⟩
  have htn : (rboundOf N u (rsingOf r)).toNat ≤ N := by omega
  simp [List.length_take, hlen, Nat.min_eq_left htn]

/-- Witness for claim C8 at concrete inputs. -/
theorem rbound_within_sampled_witness :
    (rsingOf 3 = 1 ∨ rsingOf 3 = -1)
    ∧ 1 ≤ rscaleOf (1 / 2) ∧ rscaleOf (1 / 2) < maskRatioMulQ
    ∧ 0 ≤ rboundOf 4 (1 / 2) (rsingOf 3)
    ∧ rboundOf 4 (1 / 2) (rsingOf 3) ≤ (4 : ℤ)
    ∧ (([(0, 1), (2, 3), (4, 5), (6, 7)] : List (ℕ × ℕ)).take
          (rboundOf 4 (1 / 2) (rsingOf 3)).toNat).length
        = (rboundOf 4 (1 / 2) (rsingOf 3)).toNat :=
  rbound_within_sampled 4 3 (1 / 2) [(0, 1), (2, 3), (4, 5), (6, 7)]
    (by norm_num) (by norm_num) rfl

/-- Claim C5: an entry of pmask is 1 exactly when it is one of the first
rbound[bi] sampled coordinates of its batch row (uniformly in the channel),
every entry is 0 or 1, and the extra points passed to masking are
cropped_image * pmask. -/
theorem pmask_scatter_exact (B : ℕ) (np : ℕ → List (ℕ × ℕ)) (rb : ℕ → ℕ)
    (b c y x : ℕ) (a : Args) (e : Env)
    (hb : b < B) (hg : a.use_smirk_generator = true) (hk : e.kptPresent = true) :
    (buildPmask B np rb b c y x = 1 ↔ ∃ k, k < rb b ∧ (np b)[k]? = some (x, y))
    ∧ (buildPmask B np rb b c y x = 0 ∨ buildPmask B np rb b c y x = 1)
    ∧ Ev.maskingCall (croppedImageV a.crop) (hullMaskV a.crop)
        (Val.mul (croppedImageV a.crop) (pmaskSymV a.crop e.rng)) ∈ run a e := by
  refine ⟨?_, ?_, ?_⟩
  · rw [buildPmask_apply, ← mem_take_iff_index (x, y) (np b) (rb b)]
    by_cases hm : (x, y) ∈ (np b).take (rb b)
    · simp [hb, hm]
    · simp [hb, hm]
  · rw [buildPmask_apply]
    split_ifs <;> simp
  · rcases a with ⟨ip, op, crop, gen, rorig⟩
    rcases e with ⟨kp, od, oh, ow, rng⟩
    simp only at hg hk
    subst hg
    subst hk
    cases crop <;> cases rorig <;> cases od <;>
      simp [run, tailEvents, extraPointsV]

/-- Witness for claim C5 at concrete inputs. -/
theorem pmask_scatter_exact_witness :
    (buildPmask 1 (fun _ => [(1, 2), (3, 4)]) (fun _ => 1) 0 0 2 1 = 1
       ↔ ∃ k, k < (fun _ => 1) 0
           ∧ ((fun _ => [(1, 2), (3, 4)]) 0)[k]? = some (1, 2))
    ∧ (buildPmask 1 (fun _ => [(1, 2), (3, 4)]) (fun _ => 1) 0 0 2 1 = 0
       ∨ buildPmask 1 (fun _ => [(1, 2), (3, 4)]) (fun _ => 1) 0 0 2 1 = 1)
    ∧ Ev.maskingCall (croppedImageV aW5.crop) (hullMaskV aW5.crop)
        (Val.mul (croppedImageV aW5.crop) (pmaskSymV aW5.crop eW5.rng)) ∈ run aW5 eW5 :=
  pmask_scatter_exact 1 (fun _ => [(1, 2), (3, 4)]) (fun _ => 1) 0 0 2 1 aW5 eW5
    (by decide) rfl rfl

/-- Claim C6: without --use_smirk_generator the run performs no stochastic
sampling and does not depend on the random seed: two runs with different
seeds produce identical traces, including the written output grid. -/
theorem no_sampling_without_generator (a : Args) (kp od : Bool) (oh ow r1 r2 : ℕ)
    (hg : a.use_smirk_generator = false) :
    run a ⟨kp, od, oh, ow, r1⟩ = run a ⟨kp, od, oh, ow, r2⟩
    ∧ (run a ⟨kp, od, oh, ow, r1⟩).filter (fun ev => ev.isRandomE) = [] := by
  rcases a with ⟨ip, op, crop, gen, rorig⟩
  simp only at hg
  subst hg
  cases crop <;> cases rorig <;> cases kp <;> cases od <;>
    simp [run, tailEvents, gridFinalV, Ev.isRandomE]

/-- Witness for claim C6 at concrete inputs. -/
theorem no_sampling_without_generator_witness :
    run aW6 ⟨true, true, 8, 8, 0⟩ = run aW6 ⟨true, true, 8, 8, 99⟩
    ∧ (run aW6 ⟨true, true, 8, 8, 0⟩).filter (fun ev => ev.isRandomE) = [] :=
  no_sampling_without_generator aW6 true true 8 8 0 99 rfl

/-- Claim C9: the run creates the output directory exactly when it does not
exist and, before any write, then writes exactly one file, at the path
out_path/(last slash-separated component of input_path), holding the grid
scaled by 255, cast to uint8 and channel-converted with cvtColor. -/
theorem write_path_and_makedirs (a : Args) (e : Env)
    (hx : Ev.exitCall ∉ run a e) :
    (run a e).filter (fun ev => ev.isMakedirs || ev.isWrite)
      = (if e.outDirExists then [] else [Ev.makedirs a.out_path])
        ++ [Ev.imwrite (a.out_path ++ "/" ++ image_name a.input_path)
             (Val.cvtBGR2RGB (Val.toNumpyU8
               (gridFinalV a.crop a.use_smirk_generator a.render_orig
                 e.origH e.origW e.rng)))] := by
  rcases a with ⟨ip, op, crop, gen, rorig⟩
  rcases e with ⟨kp, od, oh, ow, rng⟩
  cases crop <;> cases gen <;> cases rorig <;> cases kp <;> cases od <;>
    simp [run, tailEvents, outFile, Ev.isMakedirs, Ev.isWrite] at hx ⊢

/-- Witness for claim C9 at concrete inputs. -/
theorem write_path_and_makedirs_witness :
    (run aW9 eW9).filter (fun ev => ev.isMakedirs || ev.isWrite)
      = (if eW9.outDirExists then [] else [Ev.makedirs aW9.out_path])
        ++ [Ev.imwrite (aW9.out_path ++ "/" ++ image_name aW9.input_path)
             (Val.cvtBGR2RGB (Val.toNumpyU8
               (gridFinalV aW9.crop aW9.use_smirk_generator aW9.render_orig
                 eW9.origH eW9.origW eW9.rng)))] :=
  write_path_and_makedirs aW9 eW9 (by decide)

/-- Claim C7: when mediapipe finds no landmarks, a run with --crop exits
before any transform estimation, warping, network inference or write; a run
with --use_smirk_generator exits before the generator call and writes
nothing; with neither flag the run does not exit, still calls the renderer
and writes the single output image. -/
theorem missing_landmarks_behavior (a : Args) (e : Env)
    (hk : e.kptPresent = false) :
    (a.crop = true →
      Ev.exitCall ∈ run a e
      ∧ (run a e).filter (fun ev => ev.isEstimateE) = []
      ∧ (run a e).filter (fun ev => ev.isWarpE) = []
      ∧ (run a e).filter (fun ev => ev.isNetCall) = []
      ∧ (run a e).filter (fun ev => ev.isWrite) = [])
    ∧ (a.use_smirk_generator = true →
      Ev.exitCall ∈ run a e
      ∧ (run a e).filter (fun ev => ev.isGenCall) = []
      ∧ (run a e).filter (fun ev => ev.isWrite) = [])
    ∧ (a.crop = false → a.use_smirk_generator = false →
      Ev.exitCall ∉ run a e
      ∧ (run a e).filter (fun ev => ev.isRendererCall) ≠ []
      ∧ (run a e).filter (fun ev => ev.isWrite)
          = [Ev.imwrite (outFile a)
              (Val.cvtBGR2RGB (Val.toNumpyU8
                (gridFinalV a.crop a.use_smirk_generator a.render_orig
                  e.origH e.origW e.rng)))]) := by
  rcases a with ⟨ip, op, crop, gen, rorig⟩
  rcases e with ⟨kp, od, oh, ow, rng⟩
  simp only at hk
  subst hk
  cases crop <;> cases gen <;> cases rorig <;> cases od <;>
    simp [run, tailEvents, outFile, Ev.isEstimateE, Ev.isWarpE, Ev.isNetCall,
      Ev.isWrite, Ev.isGenCall, Ev.isRendererCall]

/-- Witness for claim C7 at concrete inputs. -/
theorem missing_landmarks_behavior_witness :
    (aW7.crop = true →
      Ev.exitCall ∈ run aW7 eW7
      ∧ (run aW7 eW7).filter (fun ev => ev.isEstimateE) = []
      ∧ (run aW7 eW7).filter (fun ev => ev.isWarpE) = []
      ∧ (run aW7 eW7).filter (fun ev => ev.isNetCall) = []
      ∧ (run aW7 eW7).filter (fun ev => ev.isWrite) = [])
    ∧ (aW7.use_smirk_generator = true →
      Ev.exitCall ∈ run aW7 eW7
      ∧ (run aW7 eW7).filter (fun ev => ev.isGenCall) = []
      ∧ (run aW7 eW7).filter (fun ev => ev.isWrite) = [])
    ∧ (aW7.crop = false → aW7.use_smirk_generator = false →
      Ev.exitCall ∉ run aW7 eW7
      ∧ (run aW7 eW7).filter (fun ev => ev.isRendererCall) ≠ []
      ∧ (run aW7 eW7).filter (fun ev => ev.isWrite)
          = [Ev.imwrite (outFile aW7)
              (Val.cvtBGR2RGB (Val.toNumpyU8
                (gridFinalV aW7.crop aW7.use_smirk_generator aW7.render_orig
                  eW7.origH eW7.origW eW7.rng)))]) :=
  missing_landmarks_behavior aW7 eW7 rfl

/-- Claim C4: with --crop and --render_orig both set (and landmarks found),
one similarity transform is estimated, from the detected landmarks; the crop
warps the original image to 224x224 with the inverse transform; the uncrop
warps the rendered image, and with the generator also the reconstructed
image, to the original height and width with the forward transform; no
second transform is ever estimated. -/
theorem crop_uncrop_single_transform (a : Args) (e : Env)
    (hc : a.crop = true) (hro : a.render_orig = true) (hk : e.kptPresent = true) :
    (run a e).filter (fun ev => ev.isEstimateE)
      = [Ev.estimateTf (Val.sliceXY Val.kptFull)]
    ∧ (run a e).filter (fun ev => ev.isWarpE)
      = [Ev.warpCall Val.image TUse.inverse 224 224,
         Ev.warpCall (Val.toNumpyU8 (renderedImgV true)) TUse.forward e.origH e.origW]
        ++ (if a.use_smirk_generator then
              [Ev.warpCall (Val.toNumpyU8 (reconstructedImgV true e.rng)) TUse.forward
                e.origH e.origW]
            else []) := by
  rcases a with ⟨ip, op, crop, gen, rorig⟩
  rcases e with ⟨kp, od, oh, ow, rng⟩
  simp only at hc hro hk
  subst hc
  subst hro
  subst hk
  cases gen <;> cases od <;>
    simp [run, tailEvents, Ev.isEstimateE, Ev.isWarpE]

/-- Witness for claim C4 at concrete inputs. -/
theorem crop_uncrop_single_transform_witness :
    (run aW4 eW4).filter (fun ev => ev.isEstimateE)
      = [Ev.estimateTf (Val.sliceXY Val.kptFull)]
    ∧ (run aW4 eW4).filter (fun ev => ev.isWarpE)
      = [Ev.warpCall Val.image TUse.inverse 224 224,
         Ev.warpCall (Val.toNumpyU8 (renderedImgV true)) TUse.forward
           eW4.origH eW4.origW]
        ++ (if aW4.use_smirk_generator then
              [Ev.warpCall (Val.toNumpyU8 (reconstructedImgV true eW4.rng)) TUse.forward
                eW4.origH eW4.origW]
            else []) :=
  crop_uncrop_single_transform aW4 eW4 rfl rfl rfl

/-- Claim C1 (amended): in every run the network forward calls are, in
order, the encoder on the normalized cropped image, the FLAME forward pass
on exactly the encoder output dictionary, the renderer on the FLAME
vertices, the encoder camera parameters and the FLAME landmarks, and the
generator exactly when --use_smirk_generator is set and mediapipe found
landmarks; the generator step runs if and only if the flag is set and
landmarks were found. -/
theorem pipeline_dataflow (a : Args) (e : Env) :
    (run a e).filter (fun ev => ev.isNetCall)
      = (if a.crop = true ∧ e.kptPresent = false then []
         else
          [Ev.encoderCall (croppedImageV a.crop),
           Ev.flameCall (Val.encoderOut (croppedImageV a.crop)),
           Ev.rendererCall
             (Val.field (Val.flameFwd (Val.encoderOut (croppedImageV a.crop))) "vertices")
             (Val.field (Val.encoderOut (croppedImageV a.crop)) "cam")
             (Val.field (Val.flameFwd (Val.encoderOut (croppedImageV a.crop))) "landmarks_fan")
             (Val.field (Val.flameFwd (Val.encoderOut (croppedImageV a.crop))) "landmarks_mp")]
          ++ (if a.use_smirk_generator = true ∧ e.kptPresent = true then
               [Ev.generatorCall (genInputV a.crop e.rng)]
              else []))
    ∧ (run a e).any (fun ev => ev.isGenCall)
        = (a.use_smirk_generator && e.kptPresent) := by
  rcases a with ⟨ip, op, crop, gen, rorig⟩
  rcases e with ⟨kp, od, oh, ow, rng⟩
  cases crop <;> cases gen <;> cases rorig <;> cases kp <;> cases od <;>
    simp [run, tailEvents, outputsV, flameOutputV, Ev.isGenCall, Ev.isNetCall]

/-- Counterexample to claim C1 as stated: with --use_smirk_generator set but
mediapipe finding no landmarks, the run exits early and performs no
generator call, so the generator step is not executed although the flag is
set. -/
theorem generator_iff_flag_fails :
    aX1.use_smirk_generator = true
    ∧ (run aX1 eX1).filter (fun ev => ev.isGenCall) = []
    ∧ Ev.exitCall ∈ run aX1 eX1 := by decide

theorem stages_run (a : Args) (e : Env) :
    stages (run a e) = stagesOf a.crop a.use_smirk_generator e.kptPresent := by
  rcases a with ⟨ip, op, crop, gen, rorig⟩
  rcases e with ⟨kp, od, oh, ow, rng⟩
  cases crop <;> cases gen <;> cases rorig <;> cases kp <;> cases od <;> rfl

theorem exitCall_mem_run (a : Args) (e : Env) :
    Ev.exitCall ∈ run a e
      ↔ e.kptPresent = false ∧ (a.crop = true ∨ a.use_smirk_generator = true) := by
  rcases a with ⟨ip, op, crop, gen, rorig⟩
  rcases e with ⟨kp, od, oh, ow, rng⟩
  cases crop <;> cases gen <;> cases rorig <;> cases kp <;> cases od <;>
    simp [run, tailEvents]

/-- Claim C2 (amended): the stage sequence of every run is a subsequence of
load, detect, crop, networks, composite, networks, composite, write, where
the second networks/composite pair occurs only on the generator path;
without --use_smirk_generator it is a subsequence of the six-stage straight
line; load, detect, crop and write each occur at most once, and the run
writes exactly one image file if and only if it does not exit early. -/
theorem run_stage_order (a : Args) (e : Env) :
    List.Sublist (stages (run a e)) extendedStages
    ∧ (a.use_smirk_generator = false →
        List.Sublist (stages (run a e)) canonicalStages)
    ∧ (stages (run a e)).count Stage.load ≤ 1
    ∧ (stages (run a e)).count Stage.detect ≤ 1
    ∧ (stages (run a e)).count Stage.cropStage ≤ 1
    ∧ (stages (run a e)).count Stage.write ≤ 1
    ∧ ((stages (run a e)).count Stage.write = 1 ↔ Ev.exitCall ∉ run a e) := by
  rw [stages_run]
  simp only [exitCall_mem_run]
  rcases a with ⟨ip, op, crop, gen, rorig⟩
  rcases e with ⟨kp, od, oh, ow, rng⟩
  simp only
  cases crop <;> cases gen <;> cases kp <;> decide

/-- Witness for claim C2 at concrete inputs. -/
theorem run_stage_order_witness :
    List.Sublist (stages (run aW2 eW2)) extendedStages
    ∧ (aW2.use_smirk_generator = false →
        List.Sublist (stages (run aW2 eW2)) canonicalStages)
    ∧ (stages (run aW2 eW2)).count Stage.load ≤ 1
    ∧ (stages (run aW2 eW2)).count Stage.detect ≤ 1
    ∧ (stages (run aW2 eW2)).count Stage.cropStage ≤ 1
    ∧ (stages (run aW2 eW2)).count Stage.write ≤ 1
    ∧ ((stages (run aW2 eW2)).count Stage.write = 1 ↔ Ev.exitCall ∉ run aW2 eW2) :=
  run_stage_order aW2 eW2

/-- Counterexample to claim C2 as stated: on the generator path the
network-inference stage runs twice (encoder block, then the generator after
the first compositing) and the compositing stage runs twice, so the stage
sequence is not the claimed six-stage straight line with each stage at most
once. -/
theorem stage_revisited_with_generator :
    2 ≤ (stages (run aX2 eX2)).count Stage.nets
    ∧ (stages (run aX2 eX2)).count Stage.composite = 2
    ∧ ¬ List.Sublist (stages (run aX2 eX2)) canonicalStages := by decide
